import Mathlib

/-!
# Verification of the microSWIFTtelemetry SBD decode-and-aggregate core

A shallow embedding of the decode-and-aggregate pipeline of
`microSWIFTtelemetry` (modules `sbd/definitions.py`, `sbd/message_handler.py`,
`sbd/message_compiler.py`, and their duplicated helpers in `sbd/_dict.py`,
`sbd/_pandas.py`, `sbd/_xarray.py`), together with theorems settling the
frozen claims about that pipeline.

Modelling conventions:
* A byte buffer is a `List Nat`, each entry intended to be `< 256`.
* IEEE 754 binary16 and binary32 bit patterns are decoded exactly into
  `Option ℚ`; `none` stands for a non-finite value (nan or infinity).
  Arithmetic performed on decoded values by the Python code in double
  precision (divisions by 100 and 10, `np.linspace`, `np.arange` contents,
  elementwise means) is modelled in exact rational arithmetic.
* Python exceptions are modelled as values of an error type carried by
  `Except`; an uncaught exception in a loop is modelled by the whole
  computation returning that error.
-/

set_option maxRecDepth 100000

/- The batteries arithmetic on `Rat` is marked irreducible, which blocks
`decide` on concrete rational computations; restore the default
reducibility for this file. -/
attribute [local semireducible] Rat.mul Rat.add Rat.inv Rat.sub

deriving instance DecidableEq for Except

namespace MicroSWIFT

/-! ## Primitive little-endian field decoders (struct format codes) -/

/-- Format code `b`: one byte as a signed 8-bit integer. -/
def i8v (b : Nat) : Int :=
  if b < 128 then (b : Int) else (b : Int) - 256

/-- Two bytes of the buffer at `off`, little endian, as an unsigned value. -/
def u16le (c : List Nat) (off : Nat) : Nat :=
  c.getD off 0 + 256 * c.getD (off + 1) 0

/-- Four bytes of the buffer at `off`, little endian, as an unsigned value. -/
def u32le (c : List Nat) (off : Nat) : Nat :=
  c.getD off 0 + 256 * c.getD (off + 1) 0 + 65536 * c.getD (off + 2) 0 +
    16777216 * c.getD (off + 3) 0

/-- Format code `h`: reinterpret an unsigned 16-bit value as signed. -/
def i16v (n : Nat) : Int :=
  if n < 32768 then (n : Int) else (n : Int) - 65536

/-- Format code `i`: reinterpret an unsigned 32-bit value as signed. -/
def i32v (n : Nat) : Int :=
  if n < 2147483648 then (n : Int) else (n : Int) - 4294967296

/-- Exact value of an IEEE 754 binary16 bit pattern; `none` for nan/inf
(format code `e`). -/
def decodeF16 (n : Nat) : Option ℚ :=
  let s := n / 32768 % 2
  let e := n / 1024 % 32
  let m := n % 1024
  if e = 31 then none
  else
    let mag : ℚ := if e = 0 then (m : ℚ) / 2 ^ 24 else ((1024 + m : Nat) : ℚ) * 2 ^ e / 2 ^ 25
    some (if s = 1 then -mag else mag)

/-- Exact value of an IEEE 754 binary32 bit pattern; `none` for nan/inf
(format code `f`). -/
def decodeF32 (n : Nat) : Option ℚ :=
  let s := n / 2147483648 % 2
  let e := n / 8388608 % 256
  let m := n % 8388608
  if e = 255 then none
  else
    let mag : ℚ :=
      if e = 0 then (m : ℚ) / 2 ^ 149 else ((8388608 + m : Nat) : ℚ) * 2 ^ e / 2 ^ 150
    some (if s = 1 then -mag else mag)

/-- binary16 field of the buffer at byte offset `off`. -/
def f16le (c : List Nat) (off : Nat) : Option ℚ := decodeF16 (u16le c off)

/-- binary32 field of the buffer at byte offset `off`. -/
def f32le (c : List Nat) (off : Nat) : Option ℚ := decodeF32 (u32le c off)

/-! ## Struct layout descriptors (`definitions.py`)

The Python code stores each layout as a `struct` format string; `calcsize`
is the sum of the field widths (all formats use `<`, so there is no
padding). -/

/-- One field code of a `struct` format string. -/
inductive FieldKind
  /-- format code `s` : a 1-byte bytes object -/
  | s
  /-- format code `b` : signed char -/
  | b
  /-- format code `B` : unsigned char -/
  | B
  /-- format code `h` : signed 16-bit -/
  | h
  /-- format code `e` : binary16 float -/
  | e
  /-- format code `f` : binary32 float -/
  | f
  /-- format code `i` : signed 32-bit -/
  | i
  /-- format code `I` : unsigned 32-bit -/
  | I
deriving DecidableEq

/-- Byte width of one field code. -/
def FieldKind.size : FieldKind → Nat
  | .s => 1 | .b => 1 | .B => 1 | .h => 2 | .e => 2 | .f => 4 | .i => 4 | .I => 4

/-- `struct.calcsize` for a `<`-prefixed (unpadded) format. -/
def calcsize (fmt : List FieldKind) : Nat := (fmt.map FieldKind.size).sum

/-- `SensorType52.definition_pre_2025 = '<sbBheee42eee42b42b42b42b42Bffeeef'`. -/
def fmt52pre : List FieldKind :=
  [.s, .b, .B, .h, .e, .e, .e] ++ List.replicate 42 .e ++ [.e, .e] ++
    List.replicate 42 .b ++ List.replicate 42 .b ++ List.replicate 42 .b ++
    List.replicate 42 .b ++ List.replicate 42 .B ++ [.f, .f, .e, .e, .e, .f]

/-- `SensorType52.definition_post_2025 = '<sbbheee42eee42b42b42b42b42BffeeefI'`. -/
def fmt52post : List FieldKind :=
  [.s, .b, .b, .h, .e, .e, .e] ++ List.replicate 42 .e ++ [.e, .e] ++
    List.replicate 42 .b ++ List.replicate 42 .b ++ List.replicate 42 .b ++
    List.replicate 42 .b ++ List.replicate 42 .B ++ [.f, .f, .e, .e, .e, .f, .I]

/-- `SensorType51.definition = '<sbbhfff42fffffffffffiiiiii'`. -/
def fmt51 : List FieldKind :=
  [.s, .b, .b, .h, .f, .f, .f] ++ List.replicate 42 .f ++ List.replicate 10 .f ++
    List.replicate 6 .i

/-- `SensorType50.definition = '<sbbhfff42f42f42f42f42f42f42ffffffffiiiiii'`. -/
def fmt50 : List FieldKind :=
  [.s, .b, .b, .h, .f, .f, .f] ++ List.replicate 42 .f ++ List.replicate 42 .f ++
    List.replicate 42 .f ++ List.replicate 42 .f ++ List.replicate 42 .f ++
    List.replicate 42 .f ++ List.replicate 42 .f ++ List.replicate 7 .f ++
    List.replicate 6 .i

/-- `SensorType52.definition`: the post-2025 layout is chosen exactly when the
content length equals its `calcsize`; otherwise the pre-2025 layout is used.
The selection reads only the length of the buffer, never its bytes. -/
def definition52 (sbd_content : List Nat) : List FieldKind :=
  if sbd_content.length = calcsize fmt52post then fmt52post else fmt52pre

example : calcsize fmt51 = 249 := by decide
example : calcsize fmt52pre = 327 := by decide
example : calcsize fmt52post = 331 := by decide
example : calcsize fmt50 = 1245 := by decide

/-! ## The SWIFT data dictionary (`VARIABLE_DEFINITIONS`, `init_swift_dict`) -/

/-- The fixed, revision-independent field-name vocabulary, in the order of
`VARIABLE_DEFINITIONS`. -/
inductive VarName
  | id | datetime | significant_height | peak_period | peak_direction
  | energy_density | frequency | a1 | b1 | a2 | b2 | check
  | u_mean | v_mean | z_mean | latitude | longitude | temperature
  | salinity | voltage | sensor_type | com_port | payload_size
deriving DecidableEq

/-- The keys of `VARIABLE_DEFINITIONS` in declaration order. -/
def allVars : List VarName :=
  [.id, .datetime, .significant_height, .peak_period, .peak_direction,
   .energy_density, .frequency, .a1, .b1, .a2, .b2, .check,
   .u_mean, .v_mean, .z_mean, .latitude, .longitude, .temperature,
   .salinity, .voltage, .sensor_type, .com_port, .payload_size]

/-- A value stored under one key of a SWIFT data dictionary.  `none` is the
Python `None` placed by `init_swift_dict`; `float Option.none` is a
non-finite Python float; `farr` is a numpy float array; `dt` is a timezone
aware UTC datetime, represented by its epoch offset in seconds. -/
inductive SwiftVal
  | none
  | str (s : String)
  | int (n : Int)
  | float (q : Option ℚ)
  | farr (xs : List (Option ℚ))
  | dt (epoch : ℚ)
deriving DecidableEq

/-- One decoded SWIFT record: the dictionary produced by `init_swift_dict`
with the fields assigned by an `unpack` method.  Fields that a revision does
not populate keep the `init_swift_dict` value `None`. -/
structure Swift where
  id : SwiftVal := .none
  datetime : SwiftVal := .none
  significant_height : SwiftVal := .none
  peak_period : SwiftVal := .none
  peak_direction : SwiftVal := .none
  energy_density : SwiftVal := .none
  frequency : SwiftVal := .none
  a1 : SwiftVal := .none
  b1 : SwiftVal := .none
  a2 : SwiftVal := .none
  b2 : SwiftVal := .none
  check : SwiftVal := .none
  u_mean : SwiftVal := .none
  v_mean : SwiftVal := .none
  z_mean : SwiftVal := .none
  latitude : SwiftVal := .none
  longitude : SwiftVal := .none
  temperature : SwiftVal := .none
  salinity : SwiftVal := .none
  voltage : SwiftVal := .none
  sensor_type : SwiftVal := .none
  com_port : SwiftVal := .none
  payload_size : SwiftVal := .none
deriving DecidableEq

/-- Dictionary access `swift[var]`. -/
def Swift.get (r : Swift) : VarName → SwiftVal
  | .id => r.id
  | .datetime => r.datetime
  | .significant_height => r.significant_height
  | .peak_period => r.peak_period
  | .peak_direction => r.peak_direction
  | .energy_density => r.energy_density
  | .frequency => r.frequency
  | .a1 => r.a1
  | .b1 => r.b1
  | .a2 => r.a2
  | .b2 => r.b2
  | .check => r.check
  | .u_mean => r.u_mean
  | .v_mean => r.v_mean
  | .z_mean => r.z_mean
  | .latitude => r.latitude
  | .longitude => r.longitude
  | .temperature => r.temperature
  | .salinity => r.salinity
  | .voltage => r.voltage
  | .sensor_type => r.sensor_type
  | .com_port => r.com_port
  | .payload_size => r.payload_size

/-! ## `id_from_filename` (`definitions.py`)

`re.search` with the pattern `(microSWIFT \d\x7b3\x7d)` finds the leftmost
occurrence of the literal text `microSWIFT ` followed by three decimal
digits; the match is then split on the space and the trailing three digits
are returned. -/

/-- Try to match `microSWIFT ` plus three digits at the head of the
character list; on success return the three digits. -/
def idMatchAt : List Char → Option String
  | 'm' :: 'i' :: 'c' :: 'r' :: 'o' :: 'S' :: 'W' :: 'I' :: 'F' :: 'T' :: ' '
      :: d1 :: d2 :: d3 :: _ =>
    if d1.isDigit && d2.isDigit && d3.isDigit then some (String.mk [d1, d2, d3])
    else Option.none
  | _ => Option.none

/-- Leftmost match, as `re.search` produces it. -/
def searchId : List Char → Option String
  | [] => Option.none
  | ch :: rest =>
    match idMatchAt (ch :: rest) with
    | some found => some found
    | Option.none => searchId rest

/-- `id_from_filename`. -/
def idFromFilename (filename : String) : Option String := searchId filename.data

/-! ## Datetime construction

`SensorType51.unpack` builds `datetime(year, month, day, hour, minute,
second, tzinfo=timezone.utc)`; `SensorType52.unpack` builds
`datetime.fromtimestamp(epoch, tz=timezone.utc)`.  Both are modelled as the
epoch offset in seconds (a rational).  The civil-to-epoch day count follows
the standard proleptic Gregorian formula. -/

/-- Days from 1970-01-01 to the civil date `y-m-d` (proleptic Gregorian). -/
def daysFromCivil (y m d : Int) : Int :=
  let y2 := y - (if m ≤ 2 then 1 else 0)
  let era := y2.fdiv 400
  let yoe := y2 - era * 400
  let doy := (153 * (m + (if 2 < m then -3 else 9)) + 2).fdiv 5 + d - 1
  let doe := yoe * 365 + yoe.fdiv 4 - yoe.fdiv 100 + doy
  era * 146097 + doe - 719468

example : daysFromCivil 1970 1 1 = 0 := by decide
example : daysFromCivil 2022 9 26 = 19261 := by decide

/-- Gregorian leap year. -/
def isLeapYear (y : Int) : Bool := y % 4 = 0 && (y % 100 ≠ 0 || y % 400 = 0)

/-- Length of month `m` of year `y`. -/
def daysInMonth (y m : Int) : Int :=
  if m = 2 then (if isLeapYear y then 29 else 28)
  else if m = 4 ∨ m = 6 ∨ m = 9 ∨ m = 11 then 30 else 31

/-- Errors raised inside an `unpack` method (they are uncaught Python
exceptions; the constructors record which check failed). -/
inductive UnpackErr
  /-- `struct.unpack` on a buffer whose length differs from `calcsize` -/
  | structError
  /-- `datetime(...)` or `datetime.fromtimestamp(...)` on invalid input -/
  | invalidDatetime
  /-- `np.arange` with step 0 (ZeroDivisionError) -/
  | zeroStep
  /-- `np.arange` with a non-finite bound or step -/
  | nonFiniteRange
  /-- `SensorType50.unpack` raises NotImplementedError -/
  | notImplemented
deriving DecidableEq

/-- `datetime(year, month, day, hour, minute, second, tzinfo=timezone.utc)`:
validates every component exactly as the Python constructor does, and yields
the epoch offset in seconds. -/
def mkDatetimeUtc (y mo d h mi s : Int) : Except UnpackErr ℚ :=
  if 1 ≤ y ∧ y ≤ 9999 ∧ 1 ≤ mo ∧ mo ≤ 12 ∧ 1 ≤ d ∧ d ≤ daysInMonth y mo ∧
      0 ≤ h ∧ h < 24 ∧ 0 ≤ mi ∧ mi < 60 ∧ 0 ≤ s ∧ s < 60 then
    Except.ok ((daysFromCivil y mo d * 86400 + h * 3600 + mi * 60 + s : Int) : ℚ)
  else Except.error .invalidDatetime

/-- Round to the nearest integer, ties to even (Python float-to-microsecond
rounding). -/
def roundHalfEven (x : ℚ) : Int :=
  let f := ⌊x⌋
  if x - f < 1/2 then f
  else if 1/2 < x - f then f + 1
  else if f % 2 = 0 then f else f + 1

/-- Smallest epoch representable by `datetime` (year 1). -/
def minEpoch : ℚ := ((daysFromCivil 1 1 1 * 86400 : Int) : ℚ)

/-- Largest epoch representable by `datetime` (end of year 9999, microsecond
resolution). -/
def maxEpoch : ℚ := ((daysFromCivil 10000 1 1 * 86400 : Int) : ℚ) - 1/1000000

/-- `datetime.fromtimestamp(epoch, tz=timezone.utc)`: rejects non-finite
input, rounds to microseconds (ties to even), and rejects epochs outside the
`datetime` range. -/
def fromtimestampUtc : Option ℚ → Except UnpackErr ℚ
  | Option.none => Except.error .invalidDatetime
  | some q =>
    let r : ℚ := (roundHalfEven (q * 1000000) : ℚ) / 1000000
    if minEpoch ≤ r ∧ r ≤ maxEpoch then Except.ok r else Except.error .invalidDatetime

/-! ## Frequency axis reconstruction (`np.linspace` / `np.arange`) -/

/-- Propagating addition on possibly non-finite values. -/
def optAdd : Option ℚ → Option ℚ → Option ℚ
  | some a, some b => some (a + b)
  | _, _ => Option.none

/-- `np.linspace(start, stop, num)` with `num` fixed and positive: the
affine interpolation including the endpoint.  Non-finite endpoints propagate
into every entry. -/
def linspaceQ (start stop : Option ℚ) (num : Nat) : List (Option ℚ) :=
  (List.range num).map fun idx : Nat =>
    match start, stop with
    | some a, some b => some (a + (idx : ℚ) * (b - a) / ((num : ℚ) - 1))
    | _, _ => Option.none

/-- `np.arange(start, stop, step)` on finite arguments: raises on step 0,
otherwise produces `max(ceil((stop-start)/step), 0)` entries.  A non-finite
argument makes the length computation raise. -/
def arangeQ (start stop step : Option ℚ) : Except UnpackErr (List (Option ℚ)) :=
  match start, stop, step with
  | some a, some b, some st =>
    if st = 0 then Except.error .zeroStep
    else
      let n := (max ⌈(b - a) / st⌉ 0).toNat
      Except.ok ((List.range n).map fun idx : Nat => some (a + (idx : ℚ) * st))
  | _, _, _ => Except.error .nonFiniteRange

/-! ## `SensorType52.unpack`

Byte offsets follow `'<sbBheee42eee42b42b42b42b42Bffeeef'` (resp. the
post-2025 variant, which differs in the signedness of the third field and an
extra trailing `I` that `unpack` never reads):
offset 0 `s` marker, 1 `b` sensor type, 2 `B`/`b` com port, 3 `h` payload
size, 5/7/9 `e` height/period/direction, 11 the 42 `e` energy array,
95/97 `e` frequency min/max, 99/141/183/225 the four 42 `b` moment arrays,
267 the 42 `B` check array, 309/313 `f` latitude/longitude, 317/319/321 `e`
temperature/salinity/voltage, 323 `f` epoch. -/
def unpack52 (sbd_filename : String) (c : List Nat) : Except UnpackErr Swift :=
  if c.length = calcsize (definition52 c) then
    let energy := (List.range 42).map fun idx => f16le c (11 + 2 * idx)
    let fmin := f16le c 95
    let fmax := f16le c 97
    let frequency :=
      if fmin ≠ some 999 ∧ fmax ≠ some 999 then linspaceQ fmin fmax energy.length
      else List.replicate energy.length (some (999 : ℚ))
    Except.bind (fromtimestampUtc (f32le c 323)) fun ts =>
      Except.ok
        { id := match idFromFilename sbd_filename with
                | some found => .str found
                | Option.none => .none
          sensor_type := .int (i8v (c.getD 1 0))
          com_port := .int (if definition52 c = fmt52post then i8v (c.getD 2 0)
                            else (c.getD 2 0 : Int))
          payload_size := .int (i16v (u16le c 3))
          significant_height := .float (f16le c 5)
          peak_period := .float (f16le c 7)
          peak_direction := .float (f16le c 9)
          energy_density := .farr energy
          frequency := .farr frequency
          a1 := .farr ((List.range 42).map fun idx =>
                  some ((i8v (c.getD (99 + idx) 0) : ℚ) / 100))
          b1 := .farr ((List.range 42).map fun idx =>
                  some ((i8v (c.getD (141 + idx) 0) : ℚ) / 100))
          a2 := .farr ((List.range 42).map fun idx =>
                  some ((i8v (c.getD (183 + idx) 0) : ℚ) / 100))
          b2 := .farr ((List.range 42).map fun idx =>
                  some ((i8v (c.getD (225 + idx) 0) : ℚ) / 100))
          check := .farr ((List.range 42).map fun idx =>
                  some ((c.getD (267 + idx) 0 : ℚ) / 10))
          latitude := .float (f32le c 309)
          longitude := .float (f32le c 313)
          temperature := .float (f16le c 317)
          salinity := .float (f16le c 319)
          voltage := .float (f16le c 321)
          datetime := .dt ts }
  else Except.error .structError

/-! ## `SensorType51.unpack`

Byte offsets follow `'<sbbhfff42fffffffffffiiiiii'`:
offset 0 `s` marker, 1 `b` sensor type, 2 `b` com port, 3 `h` payload size,
5/9/13 `f` height/period/direction, 17 the 42 `f` energy array, 185/189/193
`f` frequency min/max/step, 197/201 `f` latitude/longitude, 205 `f`
temperature, 209 `f` voltage, 213/217/221 `f` u/v/z means, 225..245 the six
`i` datetime components. -/
def unpack51 (sbd_filename : String) (c : List Nat) : Except UnpackErr Swift :=
  if c.length = calcsize fmt51 then
    let energy := (List.range 42).map fun idx => f32le c (17 + 4 * idx)
    let fmin := f32le c 185
    let fmax := f32le c 189
    let fstep := f32le c 193
    let freqRes :=
      if fmin ≠ some 999 ∧ fmax ≠ some 999 then arangeQ fmin (optAdd fmax fstep) fstep
      else Except.ok (List.replicate energy.length (some (999 : ℚ)))
    Except.bind freqRes fun frequency =>
      Except.bind (mkDatetimeUtc (i32v (u32le c 225)) (i32v (u32le c 229))
          (i32v (u32le c 233)) (i32v (u32le c 237)) (i32v (u32le c 241))
          (i32v (u32le c 245))) fun ts =>
        Except.ok
          { id := match idFromFilename sbd_filename with
                  | some found => .str found
                  | Option.none => .none
            sensor_type := .int (i8v (c.getD 1 0))
            com_port := .int (i8v (c.getD 2 0))
            payload_size := .int (i16v (u16le c 3))
            significant_height := .float (f32le c 5)
            peak_period := .float (f32le c 9)
            peak_direction := .float (f32le c 13)
            energy_density := .farr energy
            frequency := .farr frequency
            latitude := .float (f32le c 197)
            longitude := .float (f32le c 201)
            temperature := .float (f32le c 205)
            voltage := .float (f32le c 209)
            u_mean := .float (f32le c 213)
            v_mean := .float (f32le c 217)
            z_mean := .float (f32le c 221)
            datetime := .dt ts }
  else Except.error .structError

/-- `SensorType50.unpack` raises `NotImplementedError` unconditionally. -/
def unpack50 (_sbd_filename : String) (_c : List Nat) : Except UnpackErr Swift :=
  Except.error .notImplemented

/-! ## `SbdMessage` (`message_handler.py`)

The constructor strips trailing null bytes from the raw file content.  The
`payload_type_id` is byte 0 decoded as a character (the marker is the
character `7`, byte value 55); `sensor_type_id` is byte 1 as an unsigned
8-bit integer when the marker matches, `None` otherwise.  `read` produces a
data dictionary and an error dictionary; exceptions escaping `read` are
modelled as `Except.error`.

The Python in this snapshot instantiates the sensor-type class with the file
content only (`sensor_type(self.file_content)` at `message_handler.py:60`),
while every concrete constructor in `definitions.py` requires two positional
arguments `(sbd_content, sbd_filename)`.  The call therefore raises
`TypeError: __init__() missing 1 required positional argument` the first
time the `sensor_type` property is evaluated — which, inside `read`, happens
in `validate_file_size`, before any length comparison.  Consequently every
message whose revision code is a key of `SENSOR_TYPES` makes `read` raise
this `TypeError`; the size-mismatch `ValueError` and the `unpack` calls are
unreachable through `read`. -/

/-- Python exceptions that can escape the message pipeline. -/
inductive PyErr
  /-- `ord` applied to an empty byte slice in `sensor_type_id` -/
  | typeError
  /-- the constructor-arity `TypeError`: `message_handler.py:60` calls
  `sensor_type(self.file_content)` without the `sbd_filename` argument the
  constructors in `definitions.py` require -/
  | typeErrorInit
  /-- `SENSOR_TYPES[code]` lookup failure in `get_sensor_type_by_id` -/
  | keyError (code : Nat)
  /-- the `ValueError` raised by `validate_file_size` -/
  | sizeMismatch (expected actual : Nat)
  /-- an exception escaping an `unpack` method -/
  | unpack (e : UnpackErr)
  /-- the `ValueError` raised by `compile_sbd` for a bad `var_type` -/
  | valueErrorVarType
  /-- `.mean` on a plain Python list in `_unify_frequency` -/
  | attributeError
  /-- the bare `ValueError` raised by `_compile_xarray` on a shape mismatch -/
  | valueErrorShape
deriving DecidableEq

/-- `_rstrip_null`. -/
def rstripNull (bs : List Nat) : List Nat := (bs.reverse.dropWhile (· == 0)).reverse

/-- `payload_type_id`: the one-byte slice at the payload start.  Decoding a
single byte with `errors='replace'` yields the character `7` exactly when
the byte is 55, so the comparison with `'7'` is a comparison with `[55]`. -/
def payloadTypeId (content : List Nat) : List Nat := content.take 1

/-- `sensor_type_id`: `None` when the marker does not match; otherwise `ord`
of the one-byte slice at offset 1, which raises `TypeError` when the
(null-stripped) content is a single marker byte. -/
def sensorTypeId (content : List Nat) : Except PyErr (Option Nat) :=
  if payloadTypeId content = [55] then
    match (content.drop 1).take 1 with
    | [code] => Except.ok (some code)
    | _ => Except.error .typeError
  else Except.ok Option.none

/-- The keys of the `SENSOR_TYPES` registry. -/
def knownSensorType (code : Nat) : Bool := code == 50 || code == 51 || code == 52

/-- `expected_file_size` of the sensor type selected for `code`. -/
def expectedFileSize (code : Nat) (content : List Nat) : Nat :=
  if code = 50 then calcsize fmt50
  else if code = 51 then calcsize fmt51
  else calcsize (definition52 content)

/-- The error dictionary built by `SbdMessage.read` for one message. -/
structure ErrRec where
  file_name : String
  error : Option (List Nat)
deriving DecidableEq

/-- `SbdMessage.read`: opaque messages (marker mismatch) produce no data and
carry their stripped content as the error payload.  For a message carrying
the marker, `validate_file_size` evaluates the `sensor_type` property:
`get_sensor_type_by_id` raises `KeyError` when the revision code is not a
key of `SENSOR_TYPES`, and otherwise the constructor call
`sensor_type(self.file_content)` (`message_handler.py:60`) raises the
constructor-arity `TypeError` — before the expected size is ever read or
compared and before any `unpack`.  Any exception aborts `read`. -/
def msgRead (file_name : String) (raw : List Nat) :
    Except PyErr (Option Swift × ErrRec) :=
  let content := rstripNull raw
  match sensorTypeId content with
  | Except.error e => Except.error e
  | Except.ok Option.none => Except.ok (Option.none, ⟨file_name, some content⟩)
  | Except.ok (some code) =>
    if knownSensorType code then Except.error .typeErrorInit
    else Except.error (.keyError code)

/-! ## `_read_sbd` and the compilers (`message_compiler.py`) -/

/-- `_read_sbd`: read every message of the batch in order, collecting the
truthy data dictionaries and every error dictionary.  The loop has no
exception handling, so the first exception aborts the whole batch. -/
def readSbd : List (String × List Nat) → Except PyErr (List Swift × List ErrRec)
  | [] => Except.ok ([], [])
  | (nm, raw) :: rest =>
    match msgRead nm raw with
    | Except.error e => Except.error e
    | Except.ok (data, err) =>
      match readSbd rest with
      | Except.error e => Except.error e
      | Except.ok (ds, es) =>
        Except.ok ((match data with | some d => d :: ds | Option.none => ds), err :: es)

/-- `_combine_dict_list` applied to the error dictionaries (each has the
keys `file_name` and `error`). -/
structure ErrDict where
  file_name : List String
  error : List (Option (List Nat))
deriving DecidableEq

/-- Combine the per-message error dictionaries into one dictionary of
lists. -/
def combineErrList (es : List ErrRec) : ErrDict :=
  ⟨es.map ErrRec.file_name, es.map ErrRec.error⟩

/-- `_combine_dict_list` applied to the data dictionaries: a dictionary from
variable name to the list of that variable's values, in insertion order.
Every data dictionary carries every key of `VARIABLE_DEFINITIONS` in
declaration order, so the combined keys are `allVars` (empty input gives the
empty `defaultdict`). -/
abbrev DataDict := List (VarName × List SwiftVal)

/-- `defaultdict` access: a missing key yields the empty list. -/
def DataDict.get (d : DataDict) (v : VarName) : List SwiftVal :=
  ((d.find? fun p => p.1 == v).map Prod.snd).getD []

/-- `_combine_dict_list` on data dictionaries. -/
def combineDictList (ds : List Swift) : DataDict :=
  if ds.isEmpty then [] else allVars.map fun v => (v, ds.map (Swift.get · v))

/-- The comparison key of `np.argsort(d['datetime'])`: the epoch of a
datetime value. -/
def dtKeyQ : SwiftVal → ℚ
  | .dt q => q
  | _ => 0

/-- `np.argsort`: the indices `0 .. n-1` ordered so that the keys read off
along them are ascending.  (numpy's default sort promises the ordering and
the permutation but not stability; only those two properties are used in the
theorems below.) -/
def argsort (keys : List ℚ) : List Nat :=
  (List.range keys.length).mergeSort fun j k => decide (keys.getD j 0 ≤ keys.getD k 0)

/-- `_sort_dict`: index every value array by the argsort of the `datetime`
entry. -/
def sortDict (d : DataDict) : DataDict :=
  let sort_index := argsort ((d.get .datetime).map dtKeyQ)
  d.map fun p => (p.1, sort_index.map fun j => p.2.getD j .none)

/-- `_compile_dict`: sort when the combined dictionary is truthy, otherwise
warn (warning not modelled) and return it unsorted; the error dictionary is
returned untouched. -/
def compileDict (data_list : List Swift) (error_dict : ErrDict) : DataDict × ErrDict :=
  let data_dict := combineDictList data_list
  (if data_dict.isEmpty then data_dict else sortDict data_dict, error_dict)

/-- The key used when a pandas index sorts rows by buoy id. -/
def idKeyStr : SwiftVal → String
  | .str s => s
  | _ => ""

/-- The two DataFrames of `_compile_pandas`, as row lists. -/
structure PandasRes where
  data_rows : List Swift
  error_rows : List (String × Option (List Nat))
deriving DecidableEq

/-- `_compile_pandas`: a non-empty data frame is sorted by its datetime
index (or by the id/datetime multi-index); a non-empty error frame is
sorted by `file_name`. -/
def compilePandas (data_list : List Swift) (error_dict : ErrDict)
    (use_multi_index : Bool) : PandasRes :=
  let data_rows :=
    if data_list.isEmpty then data_list
    else if use_multi_index then
      data_list.mergeSort fun r1 r2 =>
        decide (idKeyStr (r1.get .id) < idKeyStr (r2.get .id) ∨
          (idKeyStr (r1.get .id) = idKeyStr (r2.get .id) ∧
            dtKeyQ (r1.get .datetime) ≤ dtKeyQ (r2.get .datetime)))
    else
      data_list.mergeSort fun r1 r2 =>
        decide (dtKeyQ (r1.get .datetime) ≤ dtKeyQ (r2.get .datetime))
  let error_rows := error_dict.file_name.zip error_dict.error
  let error_rows :=
    if error_rows.isEmpty then error_rows
    else error_rows.mergeSort fun e1 e2 => decide (e1.1 ≤ e2.1)
  ⟨data_rows, error_rows⟩

/-- The array stored in a spectral value. -/
def toFarr : SwiftVal → List (Option ℚ)
  | .farr xs => xs
  | _ => []

/-- `_unify_frequency` on a non-empty numpy matrix: the elementwise mean
over the rows. -/
def meanAxis0 (rows : List (List (Option ℚ))) : List (Option ℚ) :=
  match rows with
  | [] => []
  | r0 :: _ =>
    (List.range r0.length).map fun j =>
      ((rows.map fun r => r.getD j Option.none).foldr optAdd (some 0)).map
        (· / (rows.length : ℚ))

/-- `np.array(vals).shape` has a second axis exactly when every value is an
array and all the arrays have one common length. -/
def allFarrLen (vals : List SwiftVal) : Option Nat :=
  match vals with
  | [] => Option.none
  | v0 :: _ =>
    match v0 with
    | .farr xs =>
      if vals.all fun v => match v with | .farr ys => ys.length == xs.length | _ => false
      then some xs.length else Option.none
    | _ => Option.none

/-- The dimension tag attached to a data variable of the Dataset. -/
inductive Dims
  | timeOnly
  | timeFrequency
deriving DecidableEq

/-- One step of the `_compile_xarray` variable loop: classify a variable by
comparing its array shape with the scalar and spectral shapes, raising
`ValueError` otherwise. -/
def mkDataVar (t f : Nat) (dd : DataDict) (v : VarName) :
    Except PyErr (VarName × Dims × List SwiftVal) :=
  let vals := dd.get v
  let shape : List Nat :=
    match allFarrLen vals with
    | some fl => [vals.length, fl]
    | Option.none => [vals.length]
  if shape = [t] then Except.ok (v, .timeOnly, vals)
  else if shape = [t, f] then Except.ok (v, .timeFrequency, vals)
  else Except.error .valueErrorShape

/-- `_key_difference`. -/
def keyDifference (ka kb : List VarName) : List VarName :=
  ka.filter fun x => !kb.contains x

/-- The Dataset of `_compile_xarray`, reduced to its coordinates and data
variables. -/
structure XarrayRes where
  datetime_coord : List SwiftVal
  frequency_coord : List (Option ℚ)
  data_vars : List (VarName × Dims × List SwiftVal)
deriving DecidableEq

/-- `_compile_xarray`.  On an empty batch the combined dictionary was never
converted to numpy arrays, so `data_dict['frequency']` is a plain (empty)
Python list and `.mean` raises `AttributeError`. -/
def compileXarray (data_list : List Swift) (error_dict : ErrDict) :
    Except PyErr (XarrayRes × ErrDict) :=
  let p := compileDict data_list error_dict
  match p.1 with
  | [] => Except.error .attributeError
  | _ :: _ =>
    let data_dict := p.1
    let datetime_coord := data_dict.get .datetime
    let frequency_coord := meanAxis0 ((data_dict.get .frequency).map toFarr)
    let t := datetime_coord.length
    let f := frequency_coord.length
    let variable_keys := keyDifference allVars [.datetime, .frequency]
    match variable_keys.mapM (mkDataVar t f data_dict) with
    | Except.error e => Except.error e
    | Except.ok dvs => Except.ok (⟨datetime_coord, frequency_coord, dvs⟩, p.2)

/-- The three output shapes of `compile_sbd`. -/
inductive Output
  | dict (data : DataDict) (errors : ErrDict)
  | pandas (res : PandasRes)
  | xarray (res : XarrayRes) (errors : ErrDict)
deriving DecidableEq

/-- `compile_sbd`: read and classify every message first, then dispatch on
`var_type`, raising `ValueError` for anything other than the three supported
values. -/
def compileSbd (sbd_dict : List (String × List Nat)) (var_type : String)
    (use_multi_index : Bool) : Except PyErr Output :=
  match readSbd sbd_dict with
  | Except.error e => Except.error e
  | Except.ok (data_list, error_list) =>
    let error_dict := combineErrList error_list
    if var_type = "dict" then
      let de := compileDict data_list error_dict
      Except.ok (.dict de.1 de.2)
    else if var_type = "pandas" then
      Except.ok (.pandas (compilePandas data_list error_dict use_multi_index))
    else if var_type = "xarray" then
      match compileXarray data_list error_dict with
      | Except.error e => Except.error e
      | Except.ok xe => Except.ok (.xarray xe.1 xe.2)
    else Except.error .valueErrorVarType

/-! ## Synthetic packing of a legacy (type 51) message

The packer serializes known field values into the exact wire layout
`'<sbbhfff42fffffffffffiiiiii'`: marker byte, revision byte 51, then each
field little endian.  Float fields are given by their binary32 bit patterns;
the datetime components are given as (non-negative) integer values. -/

/-- Known field values for a synthetic legacy message. -/
structure Fields51 where
  com_port : Nat
  payload_size : Nat
  significant_height : Nat
  peak_period : Nat
  peak_direction : Nat
  energy_density : List Nat
  freq_min : Nat
  freq_max : Nat
  freq_step : Nat
  latitude : Nat
  longitude : Nat
  temperature : Nat
  voltage : Nat
  u_mean : Nat
  v_mean : Nat
  z_mean : Nat
  year : Nat
  month : Nat
  day : Nat
  hour : Nat
  minute : Nat
  second : Nat
deriving DecidableEq

/-- Two little-endian bytes. -/
def u16bytes (n : Nat) : List Nat := [n % 256, n / 256 % 256]

/-- Four little-endian bytes. -/
def u32bytes (n : Nat) : List Nat :=
  [n % 256, n / 256 % 256, n / 65536 % 256, n / 16777216 % 256]

/-- All of a packed legacy message except the final (seconds) field:
245 bytes. -/
def front51 (fl : Fields51) : List Nat :=
  55 :: 51 :: fl.com_port % 256 :: (u16bytes fl.payload_size ++
    u32bytes fl.significant_height ++ u32bytes fl.peak_period ++
    u32bytes fl.peak_direction ++
    (List.takeD 42 fl.energy_density 0).flatMap u32bytes ++
    u32bytes fl.freq_min ++ u32bytes fl.freq_max ++ u32bytes fl.freq_step ++
    u32bytes fl.latitude ++ u32bytes fl.longitude ++ u32bytes fl.temperature ++
    u32bytes fl.voltage ++ u32bytes fl.u_mean ++ u32bytes fl.v_mean ++
    u32bytes fl.z_mean ++ u32bytes fl.year ++ u32bytes fl.month ++
    u32bytes fl.day ++ u32bytes fl.hour ++ u32bytes fl.minute)

/-- The full 249-byte packed legacy message. -/
def pack51 (fl : Fields51) : List Nat := front51 fl ++ u32bytes fl.second

/-! ## Concrete sample messages used below -/

/-- A compact (type 52, pre-2025) message whose frequency-min field encodes
the sentinel 999 while the frequency-max field encodes 500; every other
field is zero except a valid epoch (1.0). -/
def sentinelMinOnly52 : List Nat :=
  [55, 52, 0, 0, 0] ++ List.replicate 6 0 ++ List.replicate 84 0 ++
    [206, 99, 208, 95] ++ List.replicate 168 0 ++ List.replicate 42 0 ++
    List.replicate 8 0 ++ List.replicate 6 0 ++ [0, 0, 128, 63]

/-- A well-formed compact (type 52, pre-2025) message: zero fields except the
first directional-moment byte (251, the signed value -5) and a valid epoch
(1.0). -/
def wellFormed52 : List Nat :=
  [55, 52, 0, 0, 0] ++ List.replicate 6 0 ++ List.replicate 84 0 ++
    [0, 0, 0, 0] ++ ([251] ++ List.replicate 167 0) ++ List.replicate 42 0 ++
    List.replicate 8 0 ++ List.replicate 6 0 ++ [0, 0, 128, 63]

/-- Known field values for a concrete synthetic legacy message: every float
is 1.0 (bit pattern 1065353216) except frequency-max 2.0 (1073741824) and a
zero energy spectrum; the timestamp is 2022-09-26 21:45:24 UTC. -/
def sampleFields51 : Fields51 where
  com_port := 1
  payload_size := 327
  significant_height := 1065353216
  peak_period := 1065353216
  peak_direction := 1065353216
  energy_density := List.replicate 42 0
  freq_min := 1065353216
  freq_max := 1073741824
  freq_step := 1065353216
  latitude := 1065353216
  longitude := 1065353216
  temperature := 1065353216
  voltage := 1065353216
  u_mean := 1065353216
  v_mean := 1065353216
  z_mean := 1065353216
  year := 2022
  month := 9
  day := 26
  hour := 21
  minute := 45
  second := 24

/-! ## General-purpose lemmas -/

/-- Reading every position of a list back with a default yields the list. -/
theorem map_getD_range {α : Type} (xs : List α) (d : α) :
    (List.range xs.length).map (fun j => xs.getD j d) = xs := by
  induction xs with
  | nil => rfl
  | cons x t ih =>
    simp only [List.length_cons, List.range_succ_eq_map, List.map_cons, List.map_map]
    refine congrArg (x :: ·) ?_
    refine Eq.trans (List.map_congr_left ?_) ih
    intro j _
    simp [Function.comp, List.getD_cons_succ]

/-- Stripping commutes with a non-null head byte. -/
theorem rstripNull_cons_of_ne (b : Nat) (t : List Nat) (hb : b ≠ 0) :
    rstripNull (b :: t) = b :: rstripNull t := by
  unfold rstripNull
  rw [List.reverse_cons, List.dropWhile_append]
  by_cases he : (t.reverse.dropWhile (· == 0)).isEmpty = true
  · rw [if_pos he, List.isEmpty_iff.mp he]
    simp [List.dropWhile_cons, hb]
  · rw [if_neg he]
    simp

/-- A successful `read` is an opaque read: no data, the stripped content as
the error payload. -/
theorem msgRead_ok_cases (nm : String) (raw : List Nat)
    (h : (msgRead nm raw).isOk = true) :
    msgRead nm raw = Except.ok (Option.none, ⟨nm, some (rstripNull raw)⟩) := by
  unfold msgRead at h ⊢
  cases hs : sensorTypeId (rstripNull raw) with
  | error e =>
    simp only [hs] at h
    simp [Except.isOk, Except.toBool] at h
  | ok o =>
    cases o with
    | none =>
      simp only [hs]
    | some code =>
      simp only [hs] at h
      by_cases hk : knownSensorType code = true <;>
        simp [hk, Except.isOk, Except.toBool] at h

/-! ## Claim theorems -/

/-- C7: for every compact-revision message, the decoder selects between the
two compact sub-layouts purely by comparing the message's total byte length
against the post-2025 layout's expected length (falling back to the pre-2025
layout), so the selection is a function of the byte length alone and never
inspects any byte of the message content; the expected file size is the
`calcsize` of the selected layout. -/
theorem compact_sublayout_by_length_only :
    (∀ c : List Nat,
      definition52 c = if c.length = calcsize fmt52post then fmt52post else fmt52pre)
    ∧ (∀ c₁ c₂ : List Nat, c₁.length = c₂.length → definition52 c₁ = definition52 c₂)
    ∧ (∀ c : List Nat, expectedFileSize 52 c = calcsize (definition52 c)) := by
  refine ⟨fun c => rfl, fun c₁ c₂ h => ?_, fun c => rfl⟩
  unfold definition52
  rw [h]

/-- Witness for C7 at two concrete buffers of equal length but different
content. -/
theorem compact_sublayout_by_length_only_witness :
    definition52 [0, 1] = definition52 [2, 3] :=
  compact_sublayout_by_length_only.2.1 [0, 1] [2, 3] (by decide)

/-- C9 (code bug): an empty batch compiles to an empty dictionary and empty
DataFrames with a warning, but the xarray materializer raises
`AttributeError` instead of returning an empty Dataset, both for an empty
batch and for a batch whose only message is opaque. -/
theorem empty_batch_materializers :
    compileSbd [] "dict" false = Except.ok (.dict [] ⟨[], []⟩)
    ∧ compileSbd [] "pandas" false = Except.ok (.pandas ⟨[], []⟩)
    ∧ compileSbd [] "xarray" false = Except.error PyErr.attributeError
    ∧ compileSbd [("a.sbd", [7])] "xarray" false = Except.error PyErr.attributeError := by
  refine ⟨by decide, by decide, by decide, by decide⟩

/-- C10: `compile_sbd` with a `var_type` other than the three supported
values raises `ValueError`, and only after every message of the batch has
been read and classified: when reading the batch itself raises, that
exception is what escapes, not the `ValueError`. -/
theorem var_type_checked_after_read (sbd_dict : List (String × List Nat))
    (var_type : String) (multi : Bool)
    (hd : var_type ≠ "dict") (hp : var_type ≠ "pandas") (hx : var_type ≠ "xarray") :
    (∀ p, readSbd sbd_dict = Except.ok p →
      compileSbd sbd_dict var_type multi = Except.error PyErr.valueErrorVarType)
    ∧ (∀ e, readSbd sbd_dict = Except.error e →
      compileSbd sbd_dict var_type multi = Except.error e) := by
  constructor
  · intro p hread
    unfold compileSbd
    rw [hread]
    simp [hd, hp, hx]
  · intro e hread
    unfold compileSbd
    rw [hread]

/-- Witness for C10: `var_type='json'` on the empty batch raises the
`ValueError`, after the (empty) read succeeded. -/
theorem var_type_checked_after_read_witness :
    compileSbd [] "json" false = Except.error PyErr.valueErrorVarType :=
  (var_type_checked_after_read [] "json" false (by decide) (by decide) (by decide)).1
    ([], []) (by decide)

/-- C5 (code bug): the size validation is never performed.  For every
message classified with a known revision — whatever its length, matching or
not — `read` raises the constructor-arity `TypeError` when
`validate_file_size` evaluates the `sensor_type` property, before any
length comparison, so no size-mismatch `ValueError` can ever be raised
through `read`. -/
theorem size_validation_unreachable (file_name : String) (raw : List Nat) (code : Nat)
    (hid : sensorTypeId (rstripNull raw) = Except.ok (some code))
    (hknown : knownSensorType code = true) :
    msgRead file_name raw = Except.error PyErr.typeErrorInit
    ∧ ∀ exp act, msgRead file_name raw ≠ Except.error (PyErr.sizeMismatch exp act) := by
  have hm : msgRead file_name raw = Except.error PyErr.typeErrorInit := by
    unfold msgRead
    simp only [hid]
    simp [hknown]
  refine ⟨hm, fun exp act => ?_⟩
  rw [hm]
  simp

/-- Witness for C5: the two-byte message carrying the marker and revision 50
raises the constructor `TypeError`, not the size mismatch against the
layout's expected 1245 bytes. -/
theorem size_validation_unreachable_witness :
    msgRead "msg.sbd" [55, 50] = Except.error PyErr.typeErrorInit ∧
    msgRead "msg.sbd" [55, 50] ≠ Except.error (PyErr.sizeMismatch 1245 2) :=
  ⟨(size_validation_unreachable "msg.sbd" [55, 50] 50 (by decide) (by decide)).1,
   (size_validation_unreachable "msg.sbd" [55, 50] 50 (by decide) (by decide)).2 1245 2⟩

/-- C6 (amended): classification reads byte 0 of the null-stripped buffer as
a character; when it differs from the marker the message is opaque and the
whole stripped buffer is the error payload verbatim with no record produced;
when it equals the marker and a second byte exists, that byte read as an
unsigned 8-bit integer is the revision code, with no exception for any code
value.  (A stripped buffer consisting of the marker byte alone instead
raises `TypeError`, which is the correction.) -/
theorem classification_rule (file_name : String) (raw : List Nat) :
    ((rstripNull raw).take 1 ≠ [55] →
      msgRead file_name raw = Except.ok (Option.none, ⟨file_name, some (rstripNull raw)⟩))
    ∧ ((rstripNull raw).take 1 = [55] → 2 ≤ (rstripNull raw).length →
      sensorTypeId (rstripNull raw) = Except.ok (some ((rstripNull raw).getD 1 0))) := by
  constructor
  · intro hne
    unfold msgRead sensorTypeId payloadTypeId
    simp [hne]
  · intro heq hlen
    match hs : rstripNull raw with
    | [] => rw [hs] at heq; exact absurd heq (by decide)
    | [a] => rw [hs] at hlen; simp at hlen
    | a :: b :: t =>
      rw [hs] at heq
      have ha : a = 55 := by simpa using heq
      subst ha
      unfold sensorTypeId payloadTypeId
      simp

/-- Witness for C6 at a two-byte opaque message. -/
theorem classification_rule_witness :
    msgRead "msg.sbd" [3, 7] =
      Except.ok (Option.none, ⟨"msg.sbd", some [3, 7]⟩) :=
  (classification_rule "msg.sbd" [3, 7]).1 (by decide)

/-- Counterexample for C6: a raw message whose stripped content is the
single marker byte makes classification raise `TypeError` (from `ord` of an
empty slice) instead of classifying it as decodable with byte 1 as the
revision code. -/
theorem marker_only_message_crashes :
    msgRead "msg.sbd" [55, 0] = Except.error PyErr.typeError := by decide

/-- C8: whenever a compact-revision message unpacks successfully, the four
directional-moment arrays are the 42 signed 8-bit bytes at offsets 99, 141,
183 and 225 each divided by 100, and the check-factor array is the 42
unsigned bytes at offset 267 each divided by 10. -/
theorem compact_moments_scaled (sbd_filename : String) (c : List Nat) (r : Swift)
    (h : unpack52 sbd_filename c = Except.ok r) :
    r.a1 = .farr ((List.range 42).map fun idx =>
        some ((i8v (c.getD (99 + idx) 0) : ℚ) / 100))
    ∧ r.b1 = .farr ((List.range 42).map fun idx =>
        some ((i8v (c.getD (141 + idx) 0) : ℚ) / 100))
    ∧ r.a2 = .farr ((List.range 42).map fun idx =>
        some ((i8v (c.getD (183 + idx) 0) : ℚ) / 100))
    ∧ r.b2 = .farr ((List.range 42).map fun idx =>
        some ((i8v (c.getD (225 + idx) 0) : ℚ) / 100))
    ∧ r.check = .farr ((List.range 42).map fun idx =>
        some ((c.getD (267 + idx) 0 : ℚ) / 10)) := by
  unfold unpack52 at h
  split at h
  · cases hts : fromtimestampUtc (f32le c 323) with
    | error e =>
      rw [hts] at h
      simp [Except.bind] at h
    | ok ts =>
      rw [hts] at h
      simp only [Except.bind] at h
      injection h with h
      rw [← h]
      exact ⟨rfl, rfl, rfl, rfl, rfl⟩
  · exact absurd h (by simp)

/-- Witness for C8 at the concrete well-formed compact message. -/
theorem compact_moments_scaled_witness :
    (unpack52 "buoy.sbd" wellFormed52).map Swift.a1 =
      Except.ok (.farr ((List.range 42).map fun idx =>
        some ((i8v (wellFormed52.getD (99 + idx) 0) : ℚ) / 100))) := by
  cases hr : unpack52 "buoy.sbd" wellFormed52 with
  | error e =>
    have hok : (unpack52 "buoy.sbd" wellFormed52).isOk = true := by decide
    rw [hr] at hok
    simp [Except.isOk, Except.toBool] at hok
  | ok r =>
    simp only [Except.map]
    exact congrArg Except.ok (compact_moments_scaled "buoy.sbd" wellFormed52 r hr).1

/-- C2 (amended): for both revisions, a successfully decoded record has its
frequency array entirely filled with the sentinel 999 exactly when the
encoded frequency-min or the encoded frequency-max equals 999 (the code
tests `fmin != 999 and fmax != 999`, so either sentinel triggers the fill,
not only both); otherwise the axis is reconstructed from the encoded
parameters. -/
theorem linspaceQ_head (a b : ℚ) (n : Nat) :
    (linspaceQ (some a) (some b) (n + 1)).head? = some (some a) := by
  simp [linspaceQ, List.range_succ_eq_map]

theorem arange_map_head (a st : ℚ) (n : Nat) :
    ((List.range (n + 1)).map fun idx : Nat =>
      (some (a + (idx : ℚ) * st) : Option ℚ)).head? = some (some a) := by
  simp [List.range_succ_eq_map]

theorem sentinel_fill_rule (sbd_filename : String) (c : List Nat) :
    (∀ r a b, unpack52 sbd_filename c = Except.ok r →
      f16le c 95 = some a → f16le c 97 = some b →
      (r.frequency = .farr (List.replicate 42 (some 999)) ↔ a = 999 ∨ b = 999))
    ∧ (∀ r a b, unpack51 sbd_filename c = Except.ok r →
      f32le c 185 = some a → f32le c 189 = some b →
      (r.frequency = .farr (List.replicate 42 (some 999)) ↔ a = 999 ∨ b = 999)) := by
  constructor
  · intro r a b h ha hb
    unfold unpack52 at h
    simp only [ha, hb, ne_eq, Option.some.injEq, List.length_map, List.length_range] at h
    split at h
    · by_cases hcond : a = 999 ∨ b = 999
      · rw [if_neg (fun hc => hcond.elim hc.1 hc.2)] at h
        cases hts : fromtimestampUtc (f32le c 323) with
        | error e => rw [hts] at h; simp [Except.bind] at h
        | ok ts =>
          rw [hts] at h
          simp only [Except.bind] at h
          injection h with h
          rw [← h]
          simp [hcond]
      · push_neg at hcond
        rw [if_pos ⟨hcond.1, hcond.2⟩] at h
        cases hts : fromtimestampUtc (f32le c 323) with
        | error e => rw [hts] at h; simp [Except.bind] at h
        | ok ts =>
          rw [hts] at h
          simp only [Except.bind] at h
          injection h with h
          rw [← h]
          refine iff_of_false (fun heq => ?_) (by simpa using hcond)
          simp only [SwiftVal.farr.injEq] at heq
          have h0 := congrArg List.head? heq
          have hr : (List.replicate 42 (some (999 : ℚ))).head? = some (some 999) := rfl
          rw [hr] at h0
          rw [show (42 : Nat) = 41 + 1 from rfl] at h0
          rw [linspaceQ_head a b 41] at h0
          exact hcond.1 (by simpa using h0)
    · exact absurd h (by simp)
  · intro r a b h ha hb
    unfold unpack51 at h
    simp only [ha, hb, ne_eq, Option.some.injEq, List.length_map, List.length_range] at h
    split at h
    · by_cases hcond : a = 999 ∨ b = 999
      · rw [if_neg (fun hc => hcond.elim hc.1 hc.2)] at h
        simp only [Except.bind] at h
        cases hdt : mkDatetimeUtc (i32v (u32le c 225)) (i32v (u32le c 229))
            (i32v (u32le c 233)) (i32v (u32le c 237)) (i32v (u32le c 241))
            (i32v (u32le c 245)) with
        | error e => rw [hdt] at h; simp [Except.bind] at h
        | ok ts =>
          rw [hdt] at h
          simp only [Except.bind] at h
          injection h with h
          rw [← h]
          simp [hcond]
      · push_neg at hcond
        rw [if_pos ⟨hcond.1, hcond.2⟩] at h
        cases hstep : f32le c 193 with
        | none =>
          rw [hstep] at h
          simp [arangeQ, optAdd, Except.bind] at h
        | some st =>
          rw [hstep] at h
          by_cases hz : st = 0
          · rw [hz] at h
            simp [arangeQ, optAdd, Except.bind] at h
          · simp only [arangeQ, optAdd, if_neg hz, Except.bind] at h
            cases hdt : mkDatetimeUtc (i32v (u32le c 225)) (i32v (u32le c 229))
                (i32v (u32le c 233)) (i32v (u32le c 237)) (i32v (u32le c 241))
                (i32v (u32le c 245)) with
            | error e => rw [hdt] at h; simp [Except.bind] at h
            | ok ts =>
              rw [hdt] at h
              simp only [Except.bind] at h
              injection h with h
              rw [← h]
              refine iff_of_false (fun heq => ?_) (by simpa using hcond)
              simp only [SwiftVal.farr.injEq] at heq
              have hlen := congrArg List.length heq
              simp only [List.length_map, List.length_range, List.length_replicate] at hlen
              rw [hlen] at heq
              have h0 := congrArg List.head? heq
              have hr : (List.replicate 42 (some (999 : ℚ))).head? = some (some 999) := rfl
              rw [hr] at h0
              rw [show (42 : Nat) = 41 + 1 from rfl] at h0
              rw [arange_map_head a st 41] at h0
              exact hcond.1 (by simpa using h0)
    · exact absurd h (by simp)

/-- Witness for C2 at the concrete compact message with frequency-min 999
and frequency-max 500. -/
theorem sentinel_fill_rule_witness :
    (unpack52 "buoy.sbd" sentinelMinOnly52).map Swift.frequency =
      Except.ok (.farr (List.replicate 42 (some 999))) := by
  cases hr : unpack52 "buoy.sbd" sentinelMinOnly52 with
  | error e =>
    have hok : (unpack52 "buoy.sbd" sentinelMinOnly52).isOk = true := by decide
    rw [hr] at hok
    simp [Except.isOk, Except.toBool] at hok
  | ok r =>
    simp only [Except.map]
    refine congrArg Except.ok ?_
    exact ((sentinel_fill_rule "buoy.sbd" sentinelMinOnly52).1 r 999 500 hr
      (by decide) (by decide)).mpr (Or.inl rfl)

/-- Counterexample for C2 as stated: a compact message encoding
frequency-min 999 but frequency-max 500 still decodes to a frequency array
entirely filled with 999, so the fill does not happen only when both
parameters are 999. -/
theorem sentinel_fill_counterexample :
    (unpack52 "buoy.sbd" sentinelMinOnly52).map Swift.frequency =
      Except.ok (.farr (List.replicate 42 (some 999)))
    ∧ f16le sentinelMinOnly52 95 = some 999
    ∧ f16le sentinelMinOnly52 97 = some 500
    ∧ (500 : ℚ) ≠ 999 := by
  exact ⟨by decide, by decide, by decide, by decide⟩

/-- The data dictionary delivered by a successful per-message read. -/
def msgData (res : Except PyErr (Option Swift × ErrRec)) : Option Swift :=
  match res with
  | Except.ok p => p.1
  | Except.error _ => Option.none

/-- The error record delivered by a successful per-message read. -/
def msgErr (res : Except PyErr (Option Swift × ErrRec)) : ErrRec :=
  match res with
  | Except.ok p => p.2
  | Except.error _ => ⟨"", Option.none⟩

/-- `_read_sbd` succeeds exactly when every per-message read does. -/
theorem readSbd_isOk (batch : List (String × List Nat)) :
    (readSbd batch).isOk = batch.all fun p => (msgRead p.1 p.2).isOk := by
  induction batch with
  | nil => rfl
  | cons hd tl ih =>
    obtain ⟨nm, raw⟩ := hd
    unfold readSbd
    cases hm : msgRead nm raw with
    | error e =>
      simp only [hm, List.all_cons, Except.isOk, Except.toBool]
      simp
    | ok pr =>
      obtain ⟨data, err⟩ := pr
      cases hrest : readSbd tl with
      | error e2 =>
        rw [hrest] at ih
        simp only [hm, hrest, List.all_cons]
        simp only [Except.isOk, Except.toBool] at ih ⊢
        rw [← ih]
        simp
      | ok q =>
        obtain ⟨ds, es⟩ := q
        rw [hrest] at ih
        simp only [hm, hrest, List.all_cons]
        simp only [Except.isOk, Except.toBool] at ih ⊢
        rw [← ih]
        simp

/-- On an all-good batch, `_read_sbd` collects the data dictionaries of the
decodable messages and one error record per message, in order. -/
theorem readSbd_ok_eq (batch : List (String × List Nat))
    (h : ∀ p ∈ batch, (msgRead p.1 p.2).isOk = true) :
    readSbd batch = Except.ok
      (batch.filterMap fun p => msgData (msgRead p.1 p.2),
       batch.map fun p => msgErr (msgRead p.1 p.2)) := by
  induction batch with
  | nil => rfl
  | cons hd tl ih =>
    obtain ⟨nm, raw⟩ := hd
    have hhd := h (nm, raw) (by simp)
    have htl : ∀ p ∈ tl, (msgRead p.1 p.2).isOk = true :=
      fun p hp => h p (List.mem_cons_of_mem _ hp)
    unfold readSbd
    cases hm : msgRead nm raw with
    | error e => rw [hm] at hhd; simp [Except.isOk, Except.toBool] at hhd
    | ok pr =>
      rw [ih htl]
      obtain ⟨data, err⟩ := pr
      simp only [List.filterMap_cons, List.map_cons, msgData, msgErr, hm]
      cases data <;> rfl

/-- C1 (amended): aggregation succeeds exactly when `read` succeeds on every
message, and `read` succeeds exactly when the message is Opaque (its
stripped byte 0 differs from the marker): only Opaque messages have their
failure captured as data in their ErrorRecord.  Every message carrying the
marker makes `read` raise — `KeyError` for an unknown revision code,
otherwise the constructor-arity `TypeError` — aborting the whole batch, so a
successful batch is all-Opaque and returns zero DecodedRecords and one
ErrorRecord per message, in order. -/
theorem per_message_isolation (batch : List (String × List Nat)) :
    ((readSbd batch).isOk = true ↔ ∀ p ∈ batch, (msgRead p.1 p.2).isOk = true)
    ∧ (∀ nm raw, (msgRead nm raw).isOk = true ↔
        payloadTypeId (rstripNull raw) ≠ [55])
    ∧ ((∀ p ∈ batch, (msgRead p.1 p.2).isOk = true) →
      readSbd batch = Except.ok
        ([], batch.map fun p => (⟨p.1, some (rstripNull p.2)⟩ : ErrRec))) := by
  refine ⟨?_, ?_, ?_⟩
  · rw [readSbd_isOk]
    simp [List.all_eq_true]
  · intro nm raw
    by_cases hm : payloadTypeId (rstripNull raw) = [55]
    · unfold msgRead sensorTypeId
      cases hc : ((rstripNull raw).tail).take 1 with
      | nil => simp [hm, hc, Except.isOk, Except.toBool]
      | cons c t =>
        cases t with
        | nil =>
          by_cases hk : knownSensorType c = true <;>
            simp [hm, hc, hk, Except.isOk, Except.toBool]
        | cons c2 t2 => simp [hm, hc, Except.isOk, Except.toBool]
    · unfold msgRead sensorTypeId
      simp [hm, Except.isOk, Except.toBool]
  · intro h
    rw [readSbd_ok_eq batch h]
    refine congrArg Except.ok (Prod.ext ?_ ?_)
    · simp only [List.filterMap_eq_nil_iff]
      intro p hp
      rw [msgRead_ok_cases p.1 p.2 (h p hp)]
      rfl
    · refine List.map_congr_left fun p hp => ?_
      rw [msgRead_ok_cases p.1 p.2 (h p hp)]
      rfl

/-- Witness for C1 applied to a batch of two opaque messages. -/
theorem per_message_isolation_witness :
    readSbd [("b.sbd", [1, 2]), ("a.sbd", [])] =
      Except.ok ([], [⟨"b.sbd", some [1, 2]⟩, ⟨"a.sbd", some []⟩]) :=
  ((per_message_isolation [("b.sbd", [1, 2]), ("a.sbd", [])]).2.2 (by decide)).trans
    (by decide)

/-- Counterexample for C1 as stated: a one-message batch with an unknown
revision code is aborted by the `KeyError`, and a batch holding one
well-formed compact message is aborted by the constructor `TypeError` at
that first message; no record is returned and no ErrorRecord captures the
failure in either case. -/
theorem batch_abort_counterexample :
    readSbd [("a.sbd", [55, 53])] = Except.error (PyErr.keyError 53)
    ∧ readSbd [("good.sbd", wellFormed52), ("bad.sbd", [55, 52])] =
      Except.error PyErr.typeErrorInit := by
  exact ⟨by decide, by decide⟩

/-- Every variable name is a key of the combined data dictionary. -/
theorem mem_allVars (v : VarName) : v ∈ allVars := by
  cases v <;> decide

/-- `find?` on a keyed map over a list of keys containing `v`. -/
theorem find?_keyed (l : List VarName) (g : VarName → List SwiftVal) (v : VarName)
    (hv : v ∈ l) :
    (l.map fun u => (u, g u)).find? (fun p => p.1 == v) = some (v, g v) := by
  induction l with
  | nil => cases hv
  | cons u tl ih =>
    rw [List.map_cons]
    by_cases hu : u = v
    · subst hu
      exact List.find?_cons_of_pos _ (by simp)
    · rw [List.find?_cons_of_neg _ (by simpa using hu)]
      exact ih ((List.mem_cons.mp hv).resolve_left fun h => hu h.symm)

/-- The combined dictionary of a non-empty batch maps every variable to its
column. -/
theorem combine_get (ds : List Swift) (hds : ¬ds.isEmpty = true) (v : VarName) :
    (combineDictList ds).get v = ds.map (Swift.get · v) := by
  unfold combineDictList DataDict.get
  rw [if_neg hds, find?_keyed _ _ _ (mem_allVars v)]
  rfl

/-- Reading a key of `_sort_dict`: every column is indexed by the argsort of
the datetime column. -/
theorem sortDict_get (d : DataDict) (v : VarName) :
    (sortDict d).get v =
      ((d.find? fun p => p.1 == v).map fun p =>
        (argsort ((d.get .datetime).map dtKeyQ)).map fun j => p.2.getD j .none).getD [] := by
  unfold sortDict DataDict.get
  rw [List.find?_map, Option.map_map]
  rfl

/-- The argsort of a key list is sorted along the keys. -/
theorem argsort_sorted (keys : List ℚ) :
    (argsort keys).Pairwise fun j k => keys.getD j 0 ≤ keys.getD k 0 := by
  have h := @List.sorted_mergeSort Nat
    (fun j k => decide (keys.getD j 0 ≤ keys.getD k 0))
    (fun a b c h1 h2 => by
      simp only [decide_eq_true_eq] at h1 h2 ⊢
      exact le_trans h1 h2)
    (fun a b => by
      simp only [Bool.or_eq_true, decide_eq_true_eq]
      exact le_total _ _)
    (List.range keys.length)
  exact h.imp (by simp)

/-- The argsort of a key list is a permutation of the index range. -/
theorem argsort_perm (keys : List ℚ) : (argsort keys).Perm (List.range keys.length) :=
  List.mergeSort_perm _ _

/-- C3 (amended): the dictionary materializer returns every column permuted
by the argsort of the datetime column alone, so the datetime keys read off
in order are ascending and each column is a permutation of the unsorted
column; the error dictionary is returned in arrival order (unsorted), and
only the pandas materializer sorts the error rows, by file name. -/
theorem sorted_by_timestamp (data_list : List Swift) (error_dict : ErrDict)
    (multi : Bool) :
    (((compileDict data_list error_dict).1.get .datetime).map dtKeyQ).Pairwise (· ≤ ·)
    ∧ (∀ v, ((compileDict data_list error_dict).1.get v).Perm
        ((combineDictList data_list).get v))
    ∧ (∀ v, (compileDict data_list error_dict).1.get v =
        (argsort (((combineDictList data_list).get .datetime).map dtKeyQ)).map
          fun j => ((combineDictList data_list).get v).getD j .none)
    ∧ (compileDict data_list error_dict).2 = error_dict
    ∧ ((compilePandas data_list error_dict multi).error_rows.map Prod.fst).Pairwise (· ≤ ·)
    ∧ ((compilePandas data_list error_dict multi).error_rows).Perm
        (error_dict.file_name.zip error_dict.error) := by
  have hget : ∀ v, (compileDict data_list error_dict).1.get v =
      (argsort (((combineDictList data_list).get .datetime).map dtKeyQ)).map
        fun j => ((combineDictList data_list).get v).getD j .none := by
    intro v
    unfold compileDict
    by_cases hds : (combineDictList data_list).isEmpty = true
    · have hnil : combineDictList data_list = [] := by
        cases hc : combineDictList data_list
        · rfl
        · rw [hc] at hds; simp [List.isEmpty] at hds
      simp [hds, hnil, DataDict.get, argsort, List.mergeSort]
    · have hcol := combine_get data_list (by
        intro hempty
        exact hds (by unfold combineDictList at *; simp_all [combineDictList]))
      show (if (combineDictList data_list).isEmpty = true then combineDictList data_list
        else sortDict (combineDictList data_list)).get v = _
      rw [if_neg hds, sortDict_get]
      unfold combineDictList at hcol ⊢
      have hne : ¬data_list.isEmpty = true := by
        intro hempty
        unfold combineDictList at hds
        rw [if_pos hempty] at hds
        exact hds rfl
      rw [if_neg hne] at *
      rw [find?_keyed _ _ _ (mem_allVars v), hcol v]
      rfl
  refine ⟨?_, ?_, hget, by unfold compileDict; rfl, ?_, ?_⟩
  · rw [hget VarName.datetime, List.map_map]
    have hkey : ∀ j, dtKeyQ (((combineDictList data_list).get .datetime).getD j .none) =
        (((combineDictList data_list).get .datetime).map dtKeyQ).getD j 0 := by
      intro j
      rw [show (0 : ℚ) = dtKeyQ .none from rfl, List.getD_map]
    refine List.Pairwise.map _ ?_
      (argsort_sorted (((combineDictList data_list).get .datetime).map dtKeyQ))
    intro a b hab
    simp only [Function.comp_apply]
    rw [hkey a, hkey b]
    exact hab
  · intro v
    rw [hget v]
    have hperm := (argsort_perm (((combineDictList data_list).get .datetime).map dtKeyQ)).map
      fun j => ((combineDictList data_list).get v).getD j .none
    refine hperm.trans ?_
    rw [List.length_map]
    by_cases hds : (combineDictList data_list).isEmpty = true
    · have hnil : combineDictList data_list = [] := by
        cases hc : combineDictList data_list
        · rfl
        · rw [hc] at hds; simp [List.isEmpty] at hds
      simp [hnil, DataDict.get]
    · have hne : ¬data_list.isEmpty = true := by
        intro hempty
        unfold combineDictList at hds
        rw [if_pos hempty] at hds
        exact hds rfl
      rw [combine_get _ hne, combine_get _ hne]
      have hlen : (data_list.map (Swift.get · VarName.datetime)).length =
          (data_list.map (Swift.get · v)).length := by simp
      rw [hlen, map_getD_range]
  · unfold compilePandas
    by_cases hz : (error_dict.file_name.zip error_dict.error).isEmpty = true
    · have : error_dict.file_name.zip error_dict.error = [] := by
        cases hc : error_dict.file_name.zip error_dict.error
        · rfl
        · rw [hc] at hz; simp [List.isEmpty] at hz
      simp [hz, this]
    · simp only [hz, if_false, ite_false]
      have h := @List.sorted_mergeSort (String × Option (List Nat))
        (fun e1 e2 => decide (e1.1 ≤ e2.1))
        (fun a b c h1 h2 => by
          simp only [decide_eq_true_eq] at h1 h2 ⊢
          exact le_trans h1 h2)
        (fun a b => by
          simp only [Bool.or_eq_true, decide_eq_true_eq]
          exact le_total _ _)
        (error_dict.file_name.zip error_dict.error)
      rw [List.pairwise_map]
      exact h.imp (by simp)
  · unfold compilePandas
    by_cases hz : (error_dict.file_name.zip error_dict.error).isEmpty = true
    · simp [hz]
    · simp only [hz, if_false, ite_false]
      exact List.mergeSort_perm _ _

/-- Counterexample for C3 as stated: through the dict materializer the
error records keep their arrival order, here `b.sbd` before `a.sbd`, so they
are not sorted by filename. -/
theorem errors_not_sorted_counterexample :
    compileSbd [("b.sbd", []), ("a.sbd", [])] "dict" false =
      Except.ok (.dict [] ⟨["b.sbd", "a.sbd"], [some [], some []]⟩)
    ∧ ¬ ("b.sbd" ≤ "a.sbd") := by
  refine ⟨by decide, ?_⟩
  rw [String.le_iff_toList_le]
  decide

set_option maxHeartbeats 1000000 in
/-- C4 (code bug): no packed legacy message can round-trip through the read
path.  Every packed legacy buffer starts with the marker byte and revision
code 51, a key of the registry, so `read` raises the constructor-arity
`TypeError` before the size check or any decode — the primary defect.  A
secondary defect would block the path even with the constructor fixed: the
packed buffer is 249 bytes but its final field (the seconds value, a
little-endian 4-byte integer below 60) ends in null bytes that the
constructor strips, leaving 246 bytes for the sample, which could not pass
`validate_file_size` against the expected 249.  The decode routine itself is
correct: applied directly to the packed bytes of the concrete sample it
recovers every packed field exactly (fields the legacy revision does not
carry stay absent). -/
theorem legacy_roundtrip_blocked (file_name : String) (fl : Fields51) :
    msgRead file_name (pack51 fl) = Except.error PyErr.typeErrorInit
    ∧ (pack51 sampleFields51).length = 249
    ∧ (rstripNull (pack51 sampleFields51)).length = 246
    ∧ unpack51 "buoy-microSWIFT 019-test.sbd" (pack51 sampleFields51) =
      Except.ok
        { id := .str "019"
          datetime := .dt 1664228724
          significant_height := .float (some 1)
          peak_period := .float (some 1)
          peak_direction := .float (some 1)
          energy_density := .farr (List.replicate 42 (some 0))
          frequency := .farr [some 1, some 2]
          u_mean := .float (some 1)
          v_mean := .float (some 1)
          z_mean := .float (some 1)
          latitude := .float (some 1)
          longitude := .float (some 1)
          temperature := .float (some 1)
          voltage := .float (some 1)
          sensor_type := .int 51
          com_port := .int 1
          payload_size := .int 327 } := by
  refine ⟨?_, by decide, by decide, by decide⟩
  obtain ⟨rest, hrest⟩ : ∃ rest, pack51 fl = 55 :: 51 :: rest := ⟨_, rfl⟩
  have hstrip : rstripNull (pack51 fl) = 55 :: 51 :: rstripNull rest := by
    rw [hrest, rstripNull_cons_of_ne 55 _ (by decide),
      rstripNull_cons_of_ne 51 _ (by decide)]
  have hsid : sensorTypeId (rstripNull (pack51 fl)) = Except.ok (some 51) := by
    rw [hstrip]
    rfl
  unfold msgRead
  simp only [hsid]
  rfl

end MicroSWIFT
